import Mathlib

/-!
Shallow embedding of the `synxis_pms_mcp` Python package (files
`client.py`, `models.py`, `config.py`) in Lean 4, and theorems settling
the frozen claims about its specification.

Modelling conventions:
* Python dynamic values are embedded as the inductive `PyVal`; Python
  `dict.get`, truthiness and attribute errors are modelled explicitly.
* Python exceptions are the inductive `PyExc`; fallible code returns
  `Except PyExc _`.  `SynXisPMSError(message, status, details)` is the
  constructor `PyExc.synxisError`.
* Floats are embedded as exact rationals; `round(x, 2)` is `pyRound2`
  (round-half-to-even at two decimal places, as Python's `round`).
* `datetime` values are opaque (`PyDateTime`); `datetime.now()` takes an
  explicit tick parameter, `random.*` draws are explicit parameters.
* The HTTP transport (httpx) is a function from the index of the call and
  the outbound request to an outcome: either a transport-level failure
  (`httpx.RequestError`) or a response with status / parsed-JSON body /
  text.  A `World` records the requests issued and the back-off sleeps
  performed, in order.
-/

/-- Embedded Python runtime values (the subset the client manipulates). -/
inductive PyVal where
  | none
  | bool (b : Bool)
  | num (q : ℚ)
  | str (s : String)
  | list (xs : List PyVal)
  | dict (kvs : List (String × PyVal))

/-- Embedded Python exceptions.  `synxisError` is `SynXisPMSError` from
`models.py` (message, optional status, details); the others are builtin
Python exception classes that the client code can raise. -/
inductive PyExc where
  | synxisError (message : PyVal) (status : Option Nat) (details : List (String × PyVal))
  | attributeError (message : String)
  | valueError (message : String)
  | typeError (message : String)
  | validationError (message : String)

/-- Lookup in an embedded Python dict (first binding wins; the literals in
the client have distinct keys). -/
def dictGet? : List (String × PyVal) → String → Option PyVal
  | [], _ => Option.none
  | (k, v) :: rest, key => if k = key then some v else dictGet? rest key

/-- Python `obj.get(key, default)`: on a dict, return the stored value
(even if it is `None`) or the default; on any non-dict value raise
`AttributeError` (this is what `None.get(...)` does in Python). -/
def pyGet (obj : PyVal) (key : String) (default : PyVal) : Except PyExc PyVal :=
  match obj with
  | .dict kvs => .ok ((dictGet? kvs key).getD default)
  | _ => .error (.attributeError "object has no attribute get")

/-- Python truthiness of an embedded value. -/
def pyTruthy : PyVal → Bool
  | .none => false
  | .bool b => b
  | .num q => if q = 0 then false else true
  | .str s => !s.isEmpty
  | .list xs => !xs.isEmpty
  | .dict kvs => !kvs.isEmpty

/-- Python `f"...{v}..."` interpolation of an embedded value (only the
string case is ever exercised by the claims). -/
def fStr : PyVal → String
  | .none => "None"
  | .bool true => "True"
  | .bool false => "False"
  | .num q => toString q
  | .str s => s
  | .list _ => "<list>"
  | .dict _ => "<dict>"

/-- Round-half-to-even to an integer, as Python's builtin `round`. -/
def roundHalfEven (q : ℚ) : ℤ :=
  let f := ⌊q⌋
  let r := q - f
  if r < 1 / 2 then f
  else if 1 / 2 < r then f + 1
  else if f % 2 = 0 then f else f + 1

/-- Python `round(x, 2)` on an exact-rational embedding of a float. -/
def pyRound2 (q : ℚ) : ℚ := (roundHalfEven (q * 100) : ℚ) / 100

/-- Embedding of Python `s.rsplit(sep, 1)[0]`: the part of `s` strictly
before the last occurrence of `sep`, or all of `s` when `sep` does not
occur. -/
def matchesAt (s pat : List Char) (i : Nat) : Bool :=
  decide ((s.drop i).take pat.length = pat)

def lastMatchIdx (s pat : List Char) : Option Nat :=
  (List.range (s.length + 1)).foldl
    (fun acc i => if matchesAt s pat i then some i else acc) Option.none

def pyRsplitHead (s sep : String) : String :=
  match lastMatchIdx s.data sep.data with
  | some i => String.mk (s.data.take i)
  | Option.none => s

/-! ## Domain model (`models.py`) -/

/-- Room status enum (`models.py`, `RoomStatus`); the string value of each
member is its own (uppercase) name. -/
inductive RoomStatus where
  | AVAILABLE | OCCUPIED | RESERVED | OUT_OF_ORDER | DIRTY | CLEANING
deriving DecidableEq

/-- Value lookup `RoomStatus(v)` on a str-valued enum: only the exact
member value strings are accepted; anything else raises `ValueError`. -/
def roomStatusOf : PyVal → Except PyExc RoomStatus
  | .str "AVAILABLE" => .ok .AVAILABLE
  | .str "OCCUPIED" => .ok .OCCUPIED
  | .str "RESERVED" => .ok .RESERVED
  | .str "OUT_OF_ORDER" => .ok .OUT_OF_ORDER
  | .str "DIRTY" => .ok .DIRTY
  | .str "CLEANING" => .ok .CLEANING
  | _ => .error (.valueError "not a valid RoomStatus")

/-- Payment method enum (`models.py`, `PaymentMethod`). -/
inductive PaymentMethod where
  | CREDIT_CARD | DEBIT_CARD | CASH | INVOICE | PREPAID
deriving DecidableEq

/-- Value lookup `PaymentMethod(v)`. -/
def paymentMethodOf : PyVal → Except PyExc PaymentMethod
  | .str "CREDIT_CARD" => .ok .CREDIT_CARD
  | .str "DEBIT_CARD" => .ok .DEBIT_CARD
  | .str "CASH" => .ok .CASH
  | .str "INVOICE" => .ok .INVOICE
  | .str "PREPAID" => .ok .PREPAID
  | _ => .error (.valueError "not a valid PaymentMethod")

/-- Opaque embedding of `datetime`: either parsed from an ISO string via
`datetime.fromisoformat` or produced by `datetime.now()` at some tick. -/
inductive PyDateTime where
  | fromIso (s : String)
  | now (tick : Nat)
deriving DecidableEq

structure Guest where
  guest_id : String
  first_name : String
  last_name : String
  email : Option String
  phone : Option String
  address : Option String
  city : Option String
  country : Option String
  loyalty_tier : Option String
  vip_status : Bool
  preferences : List String
  notes : Option String

structure Room where
  room_id : String
  room_number : String
  room_type : String
  room_type_name : String
  floor : Option Int
  status : RoomStatus
  features : List String
  max_occupancy : Int
  current_occupancy : Int

structure CheckInResult where
  success : Bool
  reservation_id : String
  room_id : String
  room_number : String
  guest_name : String
  check_in_time : PyDateTime
  key_cards_issued : Int
  message : Option String

structure Charge where
  charge_id : String
  reservation_id : String
  description : String
  amount : ℚ
  currency : String
  category : String
  posted_at : PyDateTime
  posted_by : Option String

structure Payment where
  payment_id : String
  reservation_id : String
  amount : ℚ
  currency : String
  method : PaymentMethod
  reference : Option String
  processed_at : PyDateTime

structure Folio where
  folio_id : String
  reservation_id : String
  guest_name : String
  room_number : String
  charges : List Charge
  payments : List Payment
  total_charges : ℚ
  total_payments : ℚ
  balance : ℚ

/-! Pydantic-style field validation on embedded values: a `str` field
rejects everything except a string, an optional field additionally
accepts `None`, numeric fields accept numbers, `int` fields require an
integral number. -/

def asStr : PyVal → Except PyExc String
  | .str s => .ok s
  | _ => .error (.validationError "input should be a valid string")

def asOptStr : PyVal → Except PyExc (Option String)
  | .none => .ok Option.none
  | .str s => .ok (some s)
  | _ => .error (.validationError "input should be a valid string or null")

def asBool : PyVal → Except PyExc Bool
  | .bool b => .ok b
  | _ => .error (.validationError "input should be a valid boolean")

def asQ : PyVal → Except PyExc ℚ
  | .num q => .ok q
  | _ => .error (.validationError "input should be a valid number")

def asInt : PyVal → Except PyExc Int
  | .num q => if q.den = 1 then .ok q.num else .error (.validationError "input should be a valid integer")
  | _ => .error (.validationError "input should be a valid integer")

def asOptInt : PyVal → Except PyExc (Option Int)
  | .none => .ok Option.none
  | v => do pure (some (← asInt v))

def asStrList : PyVal → Except PyExc (List String)
  | .list xs => xs.mapM asStr
  | _ => .error (.validationError "input should be a valid list")

/-! ## Settings (`config.py`, `SynXisPMSSettings`) -/

structure SynXisPMSSettings where
  client_id : String
  client_secret : String
  base_url : String
  property_id : String
  timeout : ℚ
  max_retries : Nat
  mock_mode : Bool

/-- Field defaults of `SynXisPMSSettings` in `config.py`. -/
def defaultSettings : SynXisPMSSettings :=
  { client_id := ""
    client_secret := ""
    base_url := "https://api.synxis.com/pms/v1"
    property_id := ""
    timeout := 30
    max_retries := 3
    mock_mode := false }

/-- `SynXisPMSSettings.has_credentials`: `bool(client_id and client_secret)`. -/
def has_credentials (s : SynXisPMSSettings) : Bool :=
  !s.client_id.isEmpty && !s.client_secret.isEmpty

/-! ## HTTP transport model -/

/-- An outbound HTTP request as issued by the client: token-exchange posts
carry `formData`, API requests carry query `params` and/or a JSON body
and an `Authorization` header value. -/
structure HttpRequest where
  method : String
  url : String
  formData : List (String × String)
  params : List (String × String)
  jsonBody : Option PyVal
  auth : Option String

/-- An HTTP response: status code, the parsed JSON body when `.json()`
would succeed (`Option.none` means the body is not valid JSON), and the
raw text. -/
structure HttpResponse where
  status : Nat
  jsonBody : Option PyVal
  text : String

/-- Outcome of one transport call: a transport-level failure
(`httpx.RequestError`) or a response. -/
inductive HttpOutcome where
  | failure (msg : String)
  | success (r : HttpResponse)

/-- A scripted transport: maps the index of the call (0-based, in issue
order) and the request to an outcome. -/
abbrev Transport := Nat → HttpRequest → HttpOutcome

/-- Observable effects of a run: requests issued and back-off sleeps
performed (`asyncio.sleep(2 ** attempt)`), in order. -/
structure World where
  requests : List HttpRequest
  sleeps : List Nat

def World.send (t : Transport) (w : World) (req : HttpRequest) : HttpOutcome × World :=
  (t w.requests.length req, { w with requests := w.requests ++ [req] })

/-- Number of token-exchange requests in a world (token posts are the
only requests carrying form data). -/
def tokenExchangeCount (w : World) : Nat :=
  w.requests.countP (fun r => !r.formData.isEmpty)

/-! ## Token acquisition (`client.py`, `SynXisPMSClient._get_access_token`) -/

/-- The derived token endpoint:
`f"{self.settings.base_url.rsplit('/pms', 1)[0]}/oauth/token"`. -/
def tokenUrl (s : SynXisPMSSettings) : String :=
  pyRsplitHead s.base_url "/pms" ++ "/oauth/token"

/-- The client-credentials token-exchange request posted by
`_get_access_token` (form-encoded grant). -/
def tokenRequest (s : SynXisPMSSettings) : HttpRequest :=
  { method := "POST"
    url := tokenUrl s
    formData :=
      [("grant_type", "client_credentials"),
       ("client_id", s.client_id),
       ("client_secret", s.client_secret),
       ("scope", "pms:read pms:write")]
    params := []
    jsonBody := Option.none
    auth := Option.none }

/-- `SynXisPMSClient._get_access_token`.  State threaded explicitly: the
second component of the result is the new value of the cached
`self._access_token` attribute, the third the world after any transport
call.  Raised exceptions are `Except.error`. -/
def get_access_token (s : SynXisPMSSettings) (t : Transport) (tok : PyVal) (w : World) :
    Except PyExc PyVal × PyVal × World :=
  -- if self._access_token: return self._access_token
  if pyTruthy tok then (.ok tok, tok, w)
  -- mock mode: fixed sentinel token, no network
  else if s.mock_mode then
    (.ok (.str "mock_access_token_12345"), .str "mock_access_token_12345", w)
  -- credentials check
  else if !has_credentials s then
    (.error (.synxisError
      (.str "OAuth2 credentials not configured. Set SYNXIS_PMS_CLIENT_ID and SYNXIS_PMS_CLIENT_SECRET.")
      (some 401) []), tok, w)
  else
    match World.send t w (tokenRequest s) with
    -- except httpx.RequestError
    | (.failure msg, w1) =>
      (.error (.synxisError (.str ("OAuth2 request failed: " ++ msg)) (some 503) []), tok, w1)
    | (.success r, w1) =>
      -- if response.status_code == 401
      if r.status = 401 then
        (.error (.synxisError (.str "Invalid OAuth2 credentials") (some 401) []), tok, w1)
      -- response.raise_for_status() (httpx: raises on any non-2xx),
      -- caught by except httpx.HTTPStatusError
      else if !(200 ≤ r.status && r.status ≤ 299) then
        (.error (.synxisError (.str ("OAuth2 authentication failed: " ++ r.text)) (some r.status) []),
         tok, w1)
      else
        match r.jsonBody with
        -- response.json() raises JSONDecodeError (uncaught here)
        | Option.none => (.error (.valueError "response body is not valid JSON"), tok, w1)
        | some body =>
          -- self._access_token = token_data.get("access_token")
          match pyGet body "access_token" .none with
          | .error e => (.error e, tok, w1)
          | .ok tv =>
            if !pyTruthy tv then
              (.error (.synxisError (.str "No access token in OAuth2 response") (some 500) []), tv, w1)
            else (.ok tv, tv, w1)

/-! ## Authenticated request dispatch
(`client.py`, `SynXisPMSClient._make_authenticated_request`) -/

/-- The authenticated API request issued inside the retry loop. -/
def apiRequest (method url : String) (params : List (String × String))
    (jsonBody : Option PyVal) (auth : String) : HttpRequest :=
  { method := method, url := url, formData := [], params := params,
    jsonBody := jsonBody, auth := some auth }

/-- Result of one iteration of the retry loop's `try` block:
`done` is a `return` or an uncaught raise (terminates the loop at once);
`retryable` is a caught `httpx.HTTPStatusError` / `httpx.RequestError`
(retry, or raise the carried exception on the final attempt).  Both carry
the token cache and `Authorization` header value as left by the
iteration (a mid-attempt 401 refresh mutates both for later attempts). -/
inductive AttemptOutcome where
  | done (v : Except PyExc PyVal) (tok : PyVal) (auth : String)
  | retryable (e : PyExc) (tok : PyVal) (auth : String)

/-- The exception built for a non-2xx response on the final attempt:
parse the JSON error body (falling back to a dict with the raw text as
`message`), then `error_body.get("message", f"API error: {status}")`;
the `.get` itself raises `AttributeError` when the JSON body is not a
dict. -/
def mkHttpError (r : HttpResponse) : PyExc :=
  let errorBody : PyVal :=
    match r.jsonBody with
    | some b => b
    | Option.none => .dict [("message", .str r.text)]
  match pyGet errorBody "message" (.str ("API error: " ++ toString r.status)) with
  | .ok m => .synxisError m (some r.status) []
  | .error e => e

/-- Steps 3-5 of the dispatch protocol applied to the (possibly
refresh-retried) response: 404 sentinel, `raise_for_status`
(httpx: non-2xx), `response.json()`, success wrapper. -/
def classifyResponse (r : HttpResponse) (tok : PyVal) (auth : String) : AttemptOutcome :=
  if r.status = 404 then
    .done (.ok (.dict [("data", .none), ("status", .str "not_found")])) tok auth
  else if !(200 ≤ r.status && r.status ≤ 299) then
    .retryable (mkHttpError r) tok auth
  else
    match r.jsonBody with
    | Option.none => .done (.error (.valueError "response body is not valid JSON")) tok auth
    | some data => .done (.ok (.dict [("data", data), ("status", .str "success")])) tok auth

/-- One iteration of the retry loop's `try` block: issue the request; on
a 401 invalidate the cached token, re-acquire once (an exception from
that re-acquisition is a `SynXisPMSError`, not caught by the loop's
`except` clauses, so it terminates the loop), and reissue the same
request once with the fresh bearer header. -/
def runAttempt (s : SynXisPMSSettings) (t : Transport) (method url : String)
    (params : List (String × String)) (jsonBody : Option PyVal)
    (auth : String) (tok : PyVal) (w : World) : AttemptOutcome × World :=
  match World.send t w (apiRequest method url params jsonBody auth) with
  | (.failure msg, w1) =>
    (.retryable (.synxisError (.str ("Request failed: " ++ msg)) (some 503) []) tok auth, w1)
  | (.success r0, w1) =>
    if r0.status = 401 then
      -- self._access_token = None; token = await self._get_access_token()
      match get_access_token s t .none w1 with
      | (.error e, tok2, w2) => (.done (.error e) tok2 auth, w2)
      | (.ok tv, tok2, w2) =>
        let auth2 := "Bearer " ++ fStr tv
        match World.send t w2 (apiRequest method url params jsonBody auth2) with
        | (.failure msg, w3) =>
          (.retryable (.synxisError (.str ("Request failed: " ++ msg)) (some 503) []) tok2 auth2, w3)
        | (.success r2, w3) => (classifyResponse r2 tok2 auth2, w3)
    else (classifyResponse r0 tok auth, w1)

/-- The `for attempt in range(self.settings.max_retries)` loop.  `fuel`
is the number of loop iterations still available (initially
`max_retries`); exhausting it without returning reaches the defensive
`raise SynXisPMSError("Max retries exceeded", status=503)` after the
loop.  A retryable failure on a non-final attempt sleeps
`2 ** attempt` and continues. -/
def requestLoop (s : SynXisPMSSettings) (t : Transport) (method url : String)
    (params : List (String × String)) (jsonBody : Option PyVal) :
    String → PyVal → World → Nat → Nat → Except PyExc PyVal × PyVal × World
  | _, tok, w, _, 0 =>
    (.error (.synxisError (.str "Max retries exceeded") (some 503) []), tok, w)
  | auth, tok, w, attempt, fuel + 1 =>
    match runAttempt s t method url params jsonBody auth tok w with
    | (.done v tokA _, w1) => (v, tokA, w1)
    | (.retryable e tokA authA, w1) =>
      if attempt < s.max_retries - 1 then
        requestLoop s t method url params jsonBody authA tokA
          { w1 with sleeps := w1.sleeps ++ [2 ^ attempt] } (attempt + 1) fuel
      else (.error e, tokA, w1)

/-- `SynXisPMSClient._make_authenticated_request`: acquire (or reuse) the
token, build the bearer header and the full URL, then run the retry
loop. -/
def make_authenticated_request (s : SynXisPMSSettings) (t : Transport)
    (tok : PyVal) (w : World) (method endpoint : String)
    (params : List (String × String)) (jsonBody : Option PyVal) :
    Except PyExc PyVal × PyVal × World :=
  match get_access_token s t tok w with
  | (.error e, tok1, w1) => (.error e, tok1, w1)
  | (.ok tv, tok1, w1) =>
    requestLoop s t method (s.base_url ++ endpoint) params jsonBody
      ("Bearer " ++ fStr tv) tok1 w1 0 s.max_retries

/-! ## Mock data generation (`client.py`) -/

/-- Python `f"{n:02d}"` for the small naturals drawn by the mock path. -/
def pad2 (n : Nat) : String :=
  if n < 10 then "0" ++ toString n else toString n

/-- Python `f"{n:03d}"`. -/
def pad3 (n : Nat) : String :=
  if n < 10 then "00" ++ toString n
  else if n < 100 then "0" ++ toString n
  else toString n

/-- `SynXisPMSClient._mock_guest`; `vipDraw` is the `random.random()`
sample used for `vip_status = random.random() > 0.8`. -/
def mock_guest (vipDraw : ℚ) (guest_id : String) : Guest :=
  { guest_id := guest_id
    first_name := "John"
    last_name := "Doe"
    email := some "john.doe@example.com"
    phone := some "+1-555-0100"
    address := some "123 Main Street"
    city := some "New York"
    country := some "US"
    loyalty_tier := some "Gold"
    vip_status := if (4 : ℚ) / 5 < vipDraw then true else false
    preferences := ["High floor", "Non-smoking"]
    notes := Option.none }

/-- `room_num = f"{random.randint(1, 10)}{random.randint(1, 20):02d}"`. -/
def mockRoomNumber (d1 d2 : Nat) : String := toString d1 ++ pad2 d2

/-- `int(room_num[:1])`: the first digit of the room number (1-9, or 1
when the first draw is 10). -/
def mockFloor (d1 : Nat) : Int := if d1 = 10 then 1 else (d1 : Int)

/-- `SynXisPMSClient._mock_room`; `d1`/`d2` are the two `random.randint`
draws, `st` the `random.choice(list(RoomStatus))` draw, `occ` the
`random.randint(0, 2)` draw. -/
def mock_room (d1 d2 : Nat) (st : RoomStatus) (occ : Nat) (room_id : String) : Room :=
  { room_id := room_id
    room_number := mockRoomNumber d1 d2
    room_type := "DLX"
    room_type_name := "Deluxe Room"
    floor := some (mockFloor d1)
    status := st
    features := ["WiFi", "Mini Bar", "Safe", "Iron"]
    max_occupancy := 2
    current_occupancy := (occ : Int) }

/-! ## Per-operation client methods (`client.py`) -/

/-- JSON-to-domain mapping of `get_guest`'s real path (with the `.get`
defaults of the source); pydantic validation of the required/optional
fields happens after the argument `.get`s, mirroring evaluation order. -/
def buildGuest (guest_id : String) (gd : PyVal) : Except PyExc Guest := do
  let gidV ← pyGet gd "guestId" (.str guest_id)
  let fnV ← pyGet gd "firstName" .none
  let lnV ← pyGet gd "lastName" .none
  let emV ← pyGet gd "email" .none
  let phV ← pyGet gd "phone" .none
  let adV ← pyGet gd "address" .none
  let ciV ← pyGet gd "city" .none
  let coV ← pyGet gd "country" .none
  let ltV ← pyGet gd "loyaltyTier" .none
  let vipV ← pyGet gd "vipStatus" (.bool false)
  let prV ← pyGet gd "preferences" (.list [])
  let gid ← asStr gidV
  let fn ← asStr fnV
  let ln ← asStr lnV
  let em ← asOptStr emV
  let ph ← asOptStr phV
  let ad ← asOptStr adV
  let ci ← asOptStr ciV
  let co ← asOptStr coV
  let lt ← asOptStr ltV
  let vip ← asBool vipV
  let pr ← asStrList prV
  pure { guest_id := gid, first_name := fn, last_name := ln, email := em,
         phone := ph, address := ad, city := ci, country := co,
         loyalty_tier := lt, vip_status := vip, preferences := pr,
         notes := Option.none }

/-- `SynXisPMSClient.get_guest`. -/
def get_guest (s : SynXisPMSSettings) (t : Transport) (tok : PyVal) (w : World)
    (vipDraw : ℚ) (guest_id : String) :
    Except PyExc (Option Guest) × PyVal × World :=
  if s.mock_mode then (.ok (some (mock_guest vipDraw guest_id)), tok, w)
  else
    match make_authenticated_request s t tok w "GET" ("/guests/" ++ guest_id)
        [("propertyId", s.property_id)] Option.none with
    | (.error e, tok1, w1) => (.error e, tok1, w1)
    | (.ok result, tok1, w1) =>
      match (do
          -- data = result.get("data"); if not data: return None
          let data ← pyGet result "data" .none
          if !pyTruthy data then pure Option.none
          else do
            -- guest_data = data.get("guest", data)
            let gd ← pyGet data "guest" data
            pure (some (← buildGuest guest_id gd)) : Except PyExc (Option Guest)) with
      | .error e => (.error e, tok1, w1)
      | .ok g => (.ok g, tok1, w1)

/-- JSON-to-domain mapping of `get_room`'s real path.  The `.get` calls
are evaluated first, then `RoomStatus(room_data.get("status", "clean"))`
(raising `ValueError` for any string that is not an enum value, notably
the default `"clean"` itself), then pydantic field validation. -/
def buildRoom (room_id : String) (rd : PyVal) : Except PyExc Room := do
  let ridV ← pyGet rd "roomId" (.str room_id)
  let rnV ← pyGet rd "roomNumber" .none
  let rtV ← pyGet rd "roomType" .none
  let rtnV ← pyGet rd "roomTypeName" .none
  let flV ← pyGet rd "floor" .none
  let stV ← pyGet rd "status" (.str "clean")
  let feV ← pyGet rd "features" (.list [])
  let moV ← pyGet rd "maxOccupancy" (.num 2)
  let coV ← pyGet rd "currentOccupancy" (.num 0)
  let st ← roomStatusOf stV
  let rid ← asStr ridV
  let rn ← asStr rnV
  let rt ← asStr rtV
  let rtn ← asStr rtnV
  let fl ← asOptInt flV
  let fe ← asStrList feV
  let mo ← asInt moV
  let co ← asInt coV
  pure { room_id := rid, room_number := rn, room_type := rt,
         room_type_name := rtn, floor := fl, status := st, features := fe,
         max_occupancy := mo, current_occupancy := co }

/-- `SynXisPMSClient.get_room`. -/
def get_room (s : SynXisPMSSettings) (t : Transport) (tok : PyVal) (w : World)
    (d1 d2 : Nat) (st : RoomStatus) (occ : Nat) (room_id : String) :
    Except PyExc (Option Room) × PyVal × World :=
  if s.mock_mode then (.ok (some (mock_room d1 d2 st occ room_id)), tok, w)
  else
    match make_authenticated_request s t tok w "GET" ("/rooms/" ++ room_id)
        [("propertyId", s.property_id)] Option.none with
    | (.error e, tok1, w1) => (.error e, tok1, w1)
    | (.ok result, tok1, w1) =>
      match (do
          let data ← pyGet result "data" .none
          if !pyTruthy data then pure Option.none
          else do
            let rd ← pyGet data "room" data
            pure (some (← buildRoom room_id rd)) : Except PyExc (Option Room)) with
      | .error e => (.error e, tok1, w1)
      | .ok r => (.ok r, tok1, w1)

/-- `SynXisPMSClient.get_room_status`. -/
def get_room_status (s : SynXisPMSSettings) (t : Transport) (tok : PyVal) (w : World)
    (d1 d2 : Nat) (st : RoomStatus) (occ : Nat) (room_id : String) :
    Except PyExc RoomStatus × PyVal × World :=
  if s.mock_mode then (.ok (mock_room d1 d2 st occ room_id).status, tok, w)
  else
    match make_authenticated_request s t tok w "GET"
        ("/rooms/" ++ room_id ++ "/status") [("propertyId", s.property_id)] Option.none with
    | (.error e, tok1, w1) => (.error e, tok1, w1)
    | (.ok result, tok1, w1) =>
      match (do
          -- data = result.get("data", dict()); RoomStatus(data.get("status", "clean"))
          let data ← pyGet result "data" (.dict [])
          let sv ← pyGet data "status" (.str "clean")
          roomStatusOf sv) with
      | .error e => (.error e, tok1, w1)
      | .ok st1 => (.ok st1, tok1, w1)

/-- JSON-to-domain mapping of `check_in`'s real path:
`data = result.get("data", dict()).get("checkIn", dict())` followed by
field `.get`s and pydantic validation.  On the dispatcher's 404 sentinel
the outer `.get` returns `None` and the inner `.get` raises
`AttributeError`. -/
def buildCheckIn (now : Nat) (reservation_id room_id : String) (result : PyVal) :
    Except PyExc CheckInResult := do
  let d1 ← pyGet result "data" (.dict [])
  let data ← pyGet d1 "checkIn" (.dict [])
  let sucV ← pyGet data "success" (.bool true)
  let rnV ← pyGet data "roomNumber" .none
  let gnV ← pyGet data "guestName" .none
  let citV ← pyGet data "checkInTime" .none
  let kcV ← pyGet data "keyCardsIssued" (.num 2)
  let msgV ← pyGet data "message" (.str "Check-in successful")
  let suc ← asBool sucV
  let rn ← asStr rnV
  let gn ← asStr gnV
  let kc ← asInt kcV
  let msg ← asOptStr msgV
  pure { success := suc, reservation_id := reservation_id, room_id := room_id,
         room_number := rn, guest_name := gn,
         check_in_time :=
           if pyTruthy citV then .fromIso (fStr citV) else .now now,
         key_cards_issued := kc, message := msg }

/-- `SynXisPMSClient.check_in`; `d1`/`d2` are the two `random.randint`
draws of the mock room number, `now` the `datetime.now()` tick. -/
def check_in (s : SynXisPMSSettings) (t : Transport) (tok : PyVal) (w : World)
    (d1 d2 : Nat) (now : Nat) (reservation_id room_id : String) :
    Except PyExc CheckInResult × PyVal × World :=
  if s.mock_mode then
    (.ok { success := true
           reservation_id := reservation_id
           room_id := room_id
           room_number := mockRoomNumber d1 d2
           guest_name := "John Doe"
           check_in_time := .now now
           key_cards_issued := 2
           message := some "Welcome! Your room is ready." }, tok, w)
  else
    match make_authenticated_request s t tok w "POST"
        ("/reservations/" ++ reservation_id ++ "/checkin") []
        (some (.dict [("roomId", .str room_id), ("propertyId", .str s.property_id)])) with
    | (.error e, tok1, w1) => (.error e, tok1, w1)
    | (.ok result, tok1, w1) =>
      match buildCheckIn now reservation_id room_id result with
      | .error e => (.error e, tok1, w1)
      | .ok r => (.ok r, tok1, w1)

/-- One charge of `get_folio`'s real path. -/
def buildCharge (reservation_id : String) (now : Nat) (cd : PyVal) :
    Except PyExc Charge := do
  let cidV ← pyGet cd "chargeId" .none
  let descV ← pyGet cd "description" .none
  let amtV ← pyGet cd "amount" .none
  let catV ← pyGet cd "category" .none
  let paV ← pyGet cd "postedAt" .none
  let cid ← asStr cidV
  let desc ← asStr descV
  let amt ← asQ amtV
  let _ ← if amt < 0 then (Except.error (.validationError "amount must be ge 0") : Except PyExc Unit)
          else .ok ()
  let cat ← asStr catV
  pure { charge_id := cid, reservation_id := reservation_id,
         description := desc, amount := amt, currency := "USD",
         category := cat,
         posted_at := if pyTruthy paV then .fromIso (fStr paV) else .now now,
         posted_by := Option.none }

/-- One payment of `get_folio`'s real path (note the default method value
`"credit_card"` is, like `"clean"`, not a valid enum value). -/
def buildPayment (reservation_id : String) (now : Nat) (pd : PyVal) :
    Except PyExc Payment := do
  let pidV ← pyGet pd "paymentId" .none
  let amtV ← pyGet pd "amount" .none
  let meV ← pyGet pd "method" (.str "credit_card")
  let prV ← pyGet pd "processedAt" .none
  let me ← paymentMethodOf meV
  let pid ← asStr pidV
  let amt ← asQ amtV
  let _ ← if amt < 0 then (Except.error (.validationError "amount must be ge 0") : Except PyExc Unit)
          else .ok ()
  pure { payment_id := pid, reservation_id := reservation_id, amount := amt,
         currency := "USD", method := me, reference := Option.none,
         processed_at := if pyTruthy prV then .fromIso (fStr prV) else .now now }

/-- Python `for` over an embedded value: requires a list. -/
def asPyList : PyVal → Except PyExc (List PyVal)
  | .list xs => .ok xs
  | _ => .error (.typeError "object is not iterable")

/-- JSON-to-domain mapping of `get_folio`'s real path: the totals are
copied verbatim from the upstream `totalCharges` / `totalPayments` /
`balance` fields, with no recomputation from the charge/payment lists. -/
def buildFolio (reservation_id : String) (now : Nat) (result : PyVal) :
    Except PyExc Folio := do
  let d1 ← pyGet result "data" (.dict [])
  let data ← pyGet d1 "folio" (.dict [])
  let chV ← pyGet data "charges" (.list [])
  let chList ← asPyList chV
  let charges ← chList.mapM (buildCharge reservation_id now)
  let pyV ← pyGet data "payments" (.list [])
  let pyList ← asPyList pyV
  let payments ← pyList.mapM (buildPayment reservation_id now)
  let fidV ← pyGet data "folioId" .none
  let gnV ← pyGet data "guestName" .none
  let rnV ← pyGet data "roomNumber" .none
  let tcV ← pyGet data "totalCharges" .none
  let tpV ← pyGet data "totalPayments" .none
  let balV ← pyGet data "balance" .none
  let fid ← asStr fidV
  let gn ← asStr gnV
  let rn ← asStr rnV
  let tc ← asQ tcV
  let tp ← asQ tpV
  let bal ← asQ balV
  pure { folio_id := fid, reservation_id := reservation_id, guest_name := gn,
         room_number := rn, charges := charges, payments := payments,
         total_charges := tc, total_payments := tp, balance := bal }

/-- `SynXisPMSClient.get_folio`.  In mock mode the charges are three
199.99 room charges and the payments one 200.00 credit-card payment; the
totals are computed as `round(sum(...), 2)` and the balance as
`round(total_charges - total_payments, 2)` over the raw sums. -/
def get_folio (s : SynXisPMSSettings) (t : Transport) (tok : PyVal) (w : World)
    (now : Nat) (reservation_id : String) :
    Except PyExc Folio × PyVal × World :=
  if s.mock_mode then
    let charges : List Charge :=
      (List.range 3).map (fun i =>
        { charge_id := "CHG" ++ pad3 i
          reservation_id := reservation_id
          description := "Room Charge"
          amount := (19999 : ℚ) / 100
          currency := "USD"
          category := "ROOM"
          posted_at := .now now
          posted_by := Option.none })
    let payments : List Payment :=
      [{ payment_id := "PAY001"
         reservation_id := reservation_id
         amount := 200
         currency := "USD"
         method := .CREDIT_CARD
         reference := Option.none
         processed_at := .now now }]
    let total_charges := (charges.map Charge.amount).sum
    let total_payments := (payments.map Payment.amount).sum
    (.ok { folio_id := "FOLIO-" ++ reservation_id
           reservation_id := reservation_id
           guest_name := "John Doe"
           room_number := "305"
           charges := charges
           payments := payments
           total_charges := pyRound2 total_charges
           total_payments := pyRound2 total_payments
           balance := pyRound2 (total_charges - total_payments) }, tok, w)
  else
    match make_authenticated_request s t tok w "GET"
        ("/reservations/" ++ reservation_id ++ "/folio")
        [("propertyId", s.property_id)] Option.none with
    | (.error e, tok1, w1) => (.error e, tok1, w1)
    | (.ok result, tok1, w1) =>
      match buildFolio reservation_id now result with
      | .error e => (.error e, tok1, w1)
      | .ok f => (.ok f, tok1, w1)

/-! ## Scenario settings and transport stubs -/

/-- Real-mode settings with credentials configured and a given retry
budget (all other fields at their `config.py` defaults). -/
def realSettings (retries : Nat) : SynXisPMSSettings :=
  { defaultSettings with client_id := "CID", client_secret := "SECRET",
                         max_retries := retries }

/-- Mock-mode settings. -/
def mockSettings : SynXisPMSSettings := { defaultSettings with mock_mode := true }

/-- The empty world: no requests issued, no sleeps performed. -/
def emptyWorld : World := { requests := [], sleeps := [] }

/-- A transport that answers every call with a 500 response carrying a
JSON error body. -/
def always500 : Transport := fun _ _ =>
  .success { status := 500
             jsonBody := some (.dict [("message", .str "Internal Server Error")])
             text := "Internal Server Error" }

/-- A transport that answers every call with a 404 response. -/
def always404 : Transport := fun _ _ =>
  .success { status := 404, jsonBody := some (.dict []), text := "Not Found" }

/-- A transport that answers every call with a 200 response with the
given JSON body. -/
def always200 (body : PyVal) : Transport := fun _ _ =>
  .success { status := 200, jsonBody := some body, text := "OK" }

/-- A transport for the 401-refresh scenario: 401 on the first call,
a token-exchange success on the second, then 200 with `body`. -/
def stub401then200 (body : PyVal) : Transport := fun i _ =>
  if i = 0 then
    .success { status := 401, jsonBody := some (.dict []), text := "Unauthorized" }
  else if i = 1 then
    .success { status := 200
               jsonBody := some (.dict [("access_token", .str "T2")])
               text := "OK" }
  else .success { status := 200, jsonBody := some body, text := "OK" }

/-- A transport for the token-caching scenario: a token-exchange success
on the first call, then 200 responses carrying a room status. -/
def stubTokenThen200 : Transport := fun i _ =>
  if i = 0 then
    .success { status := 200
               jsonBody := some (.dict [("access_token", .str "TOK")])
               text := "OK" }
  else
    .success { status := 200
               jsonBody := some (.dict [("status", .str "OCCUPIED")])
               text := "OK" }

/-- A transport whose single role is to answer the token exchange. -/
def stubTokenOnly : Transport := fun _ _ =>
  .success { status := 200
             jsonBody := some (.dict [("access_token", .str "TOK")])
             text := "OK" }

/-- A transport returning a 200 folio payload with empty charge/payment
lists and the given (arbitrary, possibly mutually inconsistent) totals. -/
def folioStub (a b c : ℚ) : Transport := fun _ _ =>
  .success { status := 200
             jsonBody := some (.dict [("folio", .dict
               [("folioId", .str "F1"),
                ("guestName", .str "Jane Roe"),
                ("roomNumber", .str "305"),
                ("charges", .list []),
                ("payments", .list []),
                ("totalCharges", .num a),
                ("totalPayments", .num b),
                ("balance", .num c)])])
             text := "OK" }

/-- Modelled from the spec: the spec derives the token endpoint as "the
base API path with its trailing API-version suffix stripped" followed by
`/oauth/token` (`POST (base-minus-version)/oauth/token`), i.e. only the
final version path segment is removed from the base URL. -/
def specTokenUrl (s : SynXisPMSSettings) : String :=
  pyRsplitHead s.base_url "/" ++ "/oauth/token"

/-! ## Helper lemmas -/

/-- One unrolling of the retry loop against the always-500 transport: the
attempt issues one request, classifies the 500 response as retryable, and
either sleeps `2 ^ attempt` and continues or surfaces the parsed error. -/
lemma requestLoop_always500_step (s : SynXisPMSSettings) (method url : String)
    (params : List (String × String)) (jsonBody : Option PyVal)
    (fuel attempt : Nat) (auth : String) (tok : PyVal) (w : World) :
    requestLoop s always500 method url params jsonBody auth tok w attempt (fuel + 1) =
      if attempt < s.max_retries - 1 then
        requestLoop s always500 method url params jsonBody auth tok
          { requests := w.requests ++ [apiRequest method url params jsonBody auth]
            sleeps := w.sleeps ++ [2 ^ attempt] } (attempt + 1) fuel
      else
        (.error (.synxisError (.str "Internal Server Error") (some 500) []), tok,
         { requests := w.requests ++ [apiRequest method url params jsonBody auth]
           sleeps := w.sleeps }) := by
  simp [requestLoop, runAttempt, World.send, always500, classifyResponse,
        mkHttpError, pyGet, dictGet?]

/-- Against the always-500 transport the retry loop runs all its
remaining attempts, issuing one request and (on all but the final
attempt) one sleep of `2 ^ attempt` each, and finally surfaces the
parsed upstream error with status 500. -/
lemma requestLoop_always500 (s : SynXisPMSSettings) (method url : String)
    (params : List (String × String)) (jsonBody : Option PyVal) :
    ∀ (fuel attempt : Nat) (auth : String) (tok : PyVal) (w : World),
    s.max_retries = attempt + fuel + 1 →
    requestLoop s always500 method url params jsonBody auth tok w attempt (fuel + 1) =
      (.error (.synxisError (.str "Internal Server Error") (some 500) []), tok,
       { requests := w.requests ++
           List.replicate (fuel + 1) (apiRequest method url params jsonBody auth)
         sleeps := w.sleeps ++ (List.range' attempt fuel).map (fun a => 2 ^ a) }) := by
  intro fuel
  induction fuel with
  | zero =>
    intro attempt auth tok w h
    have hc : ¬ (attempt < s.max_retries - 1) := by omega
    rw [requestLoop_always500_step, if_neg hc]
    simp
  | succ f ih =>
    intro attempt auth tok w h
    have hc : attempt < s.max_retries - 1 := by omega
    have h2 : s.max_retries = (attempt + 1) + f + 1 := by omega
    rw [requestLoop_always500_step, if_pos hc, ih (attempt + 1) auth tok _ h2]
    simp [List.replicate_succ, List.range'_succ, List.append_assoc]

/-! ## Claims -/

/-- C1: against a transport answering 500 to every attempt, the real-mode
dispatcher with `max_retries = 3` (cached token) attempts the request
exactly 3 times, sleeps `2 ^ attempt` after each failed attempt except
the last (sleeps of 1 then 2), and finally raises `SynXisPMSError`
carrying upstream status 500; in general, with `max_retries = n + 1` it
issues `n + 1` requests, sleeps `2 ^ 0 .. 2 ^ (n - 1)` between them, and
surfaces the parsed status-500 error on the final attempt. -/
theorem retry_backoff_exhaustion :
    make_authenticated_request (realSettings 3) always500 (.str "TOKEN") emptyWorld
        "GET" "/guests/G1" [("propertyId", "")] Option.none =
      (.error (.synxisError (.str "Internal Server Error") (some 500) []), .str "TOKEN",
       { requests := List.replicate 3 (apiRequest "GET"
           "https://api.synxis.com/pms/v1/guests/G1" [("propertyId", "")] Option.none
           "Bearer TOKEN")
         sleeps := [1, 2] }) ∧
    ∀ (n : Nat) (method endpoint : String) (params : List (String × String))
      (jsonBody : Option PyVal),
    make_authenticated_request (realSettings (n + 1)) always500 (.str "TOKEN") emptyWorld
        method endpoint params jsonBody =
      (.error (.synxisError (.str "Internal Server Error") (some 500) []), .str "TOKEN",
       { requests := List.replicate (n + 1) (apiRequest method
           ((realSettings (n + 1)).base_url ++ endpoint) params jsonBody "Bearer TOKEN")
         sleeps := (List.range n).map (fun a => 2 ^ a) }) := by
  constructor
  · rfl
  · intro n method endpoint params jsonBody
    have h : (realSettings (n + 1)).max_retries = 0 + n + 1 := by
      simp [realSettings, defaultSettings]
    calc make_authenticated_request (realSettings (n + 1)) always500 (.str "TOKEN")
          emptyWorld method endpoint params jsonBody
        = requestLoop (realSettings (n + 1)) always500 method
            ((realSettings (n + 1)).base_url ++ endpoint) params jsonBody
            "Bearer TOKEN" (.str "TOKEN") emptyWorld 0 (n + 1) := rfl
      _ = _ := by
          rw [requestLoop_always500 (realSettings (n + 1)) method
              ((realSettings (n + 1)).base_url ++ endpoint) params jsonBody n 0
              "Bearer TOKEN" (.str "TOKEN") emptyWorld h]
          simp [emptyWorld, List.range_eq_range']

/-- C2: when the first authenticated response of an attempt is 401, the
dispatcher invalidates the cached token, performs exactly one
token-exchange, and reissues the same request exactly once with the
fresh bearer header, inside the same attempt (no sleep, no retry-budget
slot consumed, for any positive retry budget); with a transport
answering 401 then a token grant then 200, the call returns the success
wrapper rather than raising, having performed exactly one token
exchange. -/
theorem token_refresh_on_401 :
    ∀ (m : Nat) (body : PyVal) (endpoint : String) (params : List (String × String)),
    make_authenticated_request (realSettings (m + 1)) (stub401then200 body)
        (.str "T1") emptyWorld "GET" endpoint params Option.none =
      (.ok (.dict [("data", body), ("status", .str "success")]), .str "T2",
       { requests :=
          [apiRequest "GET" ((realSettings (m + 1)).base_url ++ endpoint) params
             Option.none "Bearer T1",
           tokenRequest (realSettings (m + 1)),
           apiRequest "GET" ((realSettings (m + 1)).base_url ++ endpoint) params
             Option.none "Bearer T2"]
         sleeps := [] }) ∧
    tokenExchangeCount (make_authenticated_request (realSettings (m + 1))
      (stub401then200 body) (.str "T1") emptyWorld "GET" endpoint params
      Option.none).2.2 = 1 := by
  intro m body endpoint params
  refine ⟨rfl, ?_⟩
  rfl

/-- C3 counterexample: the code derives the token endpoint by truncating
the base URL at the last occurrence of `/pms` (dropping the `/pms`
product segment together with the version suffix), not by stripping only
the trailing API-version segment as the claim states; at the default
base URL the two derivations disagree. -/
theorem token_endpoint_counterexample :
    tokenUrl defaultSettings = "https://api.synxis.com/oauth/token" ∧
    specTokenUrl defaultSettings = "https://api.synxis.com/pms/oauth/token" ∧
    tokenUrl defaultSettings ≠ specTokenUrl defaultSettings := by
  refine ⟨by decide, by decide, by decide⟩

/-- C3 amended: real-mode token acquisition posts the client-credentials
form (grant_type, client_id, client_secret, fixed scope) to the endpoint
obtained from the configured base URL by truncating it at the last
occurrence of `/pms` and appending `/oauth/token`; for the default base
URL `https://api.synxis.com/pms/v1` this is
`https://api.synxis.com/oauth/token`. -/
theorem token_endpoint_amended :
    get_access_token (realSettings 3) stubTokenOnly PyVal.none emptyWorld =
      (.ok (.str "TOK"), .str "TOK",
       { requests := [tokenRequest (realSettings 3)], sleeps := [] }) ∧
    (tokenRequest (realSettings 3)).method = "POST" ∧
    (tokenRequest (realSettings 3)).url = "https://api.synxis.com/oauth/token" ∧
    (tokenRequest (realSettings 3)).formData =
      [("grant_type", "client_credentials"), ("client_id", "CID"),
       ("client_secret", "SECRET"), ("scope", "pms:read pms:write")] := by
  refine ⟨rfl, rfl, by decide, rfl⟩

/-- C4: the claim that every per-operation method either returns a
domain value or raises the typed `SynXisPMSError` fails on the 404
sentinel: the dispatcher maps 404 to a result whose `data` field is
`None`, and `check_in` / `get_room_status` (unlike `get_guest` /
`get_room`) call `.get` on that `None`, so a plain `AttributeError` —
not the typed API error — escapes. -/
theorem checkin_404_attribute_error :
    (check_in (realSettings 3) always404 (.str "T") emptyWorld 0 0 0 "RES1" "R1").1 =
      .error (.attributeError "object has no attribute get") ∧
    (get_room_status (realSettings 3) always404 (.str "T") emptyWorld
      0 0 .AVAILABLE 0 "R1").1 =
      .error (.attributeError "object has no attribute get") := ⟨rfl, rfl⟩

/-- C5: a transport answering 404 makes the dispatcher return the
not-found sentinel without raising, and `get_guest` / `get_room` return
an absent value (`None`) rather than raising. -/
theorem not_found_returns_absent :
    ∀ (guest_id room_id method endpoint : String)
      (params : List (String × String)) (jsonBody : Option PyVal),
    (make_authenticated_request (realSettings 3) always404 (.str "T") emptyWorld
        method endpoint params jsonBody).1 =
      .ok (.dict [("data", .none), ("status", .str "not_found")]) ∧
    (get_guest (realSettings 3) always404 (.str "T") emptyWorld 0 guest_id).1 =
      .ok Option.none ∧
    (get_room (realSettings 3) always404 (.str "T") emptyWorld
      0 0 .AVAILABLE 0 room_id).1 = .ok Option.none :=
  fun _ _ _ _ _ _ => ⟨rfl, rfl, rfl⟩

/-- C6: if a cached token exists, `_get_access_token` returns it at once
with no token exchange and no transport traffic; consequently two
sequential authenticated real-mode calls on the same client state, with
a transport that never answers 401, perform exactly one token exchange
across the two calls (three requests in total) and both succeed. -/
theorem token_cache_single_exchange :
    (∀ (s : SynXisPMSSettings) (t : Transport) (tok : PyVal) (w : World),
      pyTruthy tok = true → get_access_token s t tok w = (.ok tok, tok, w)) ∧
    (get_room_status (realSettings 3) stubTokenThen200 PyVal.none emptyWorld
        0 0 .AVAILABLE 0 "R1").1 = .ok .OCCUPIED ∧
    (get_room_status (realSettings 3) stubTokenThen200
        (get_room_status (realSettings 3) stubTokenThen200 PyVal.none emptyWorld
          0 0 .AVAILABLE 0 "R1").2.1
        (get_room_status (realSettings 3) stubTokenThen200 PyVal.none emptyWorld
          0 0 .AVAILABLE 0 "R1").2.2
        0 0 .AVAILABLE 0 "R1").1 = .ok .OCCUPIED ∧
    tokenExchangeCount
      (get_room_status (realSettings 3) stubTokenThen200
        (get_room_status (realSettings 3) stubTokenThen200 PyVal.none emptyWorld
          0 0 .AVAILABLE 0 "R1").2.1
        (get_room_status (realSettings 3) stubTokenThen200 PyVal.none emptyWorld
          0 0 .AVAILABLE 0 "R1").2.2
        0 0 .AVAILABLE 0 "R1").2.2 = 1 ∧
    (get_room_status (realSettings 3) stubTokenThen200
        (get_room_status (realSettings 3) stubTokenThen200 PyVal.none emptyWorld
          0 0 .AVAILABLE 0 "R1").2.1
        (get_room_status (realSettings 3) stubTokenThen200 PyVal.none emptyWorld
          0 0 .AVAILABLE 0 "R1").2.2
        0 0 .AVAILABLE 0 "R1").2.2.requests.length = 3 := by
  refine ⟨?_, rfl, rfl, rfl, rfl⟩
  intro s t tok w h
  simp [get_access_token, h]

/-- Witness for C6: the cached-token clause applied to a concrete cached
token, a concrete transport and the empty world. -/
theorem token_cache_single_exchange_witness :
    get_access_token (realSettings 3) stubTokenThen200 (.str "CACHED") emptyWorld =
      (.ok (.str "CACHED"), .str "CACHED", emptyWorld) :=
  token_cache_single_exchange.1 (realSettings 3) stubTokenThen200 (.str "CACHED")
    emptyWorld rfl

/-- C7: the claim that a payload omitting the status field yields a room
with a "clean"-equivalent default status fails: the code's default
`"clean"` is not a value of the `RoomStatus` enum (whose values are the
uppercase AVAILABLE..CLEANING), so `RoomStatus("clean")` raises
`ValueError` and both `get_room` and `get_room_status` fail instead of
succeeding with a default. -/
theorem room_status_default_value_error :
    (get_room_status (realSettings 3) (always200 (.dict [])) (.str "T") emptyWorld
      0 0 .AVAILABLE 0 "R1").1 = .error (.valueError "not a valid RoomStatus") ∧
    (get_room (realSettings 3)
      (always200 (.dict [("roomId", .str "R1"), ("roomNumber", .str "101"),
        ("roomType", .str "DLX"), ("roomTypeName", .str "Deluxe Room")]))
      (.str "T") emptyWorld 0 0 .AVAILABLE 0 "R1").1 =
      .error (.valueError "not a valid RoomStatus") := ⟨rfl, rfl⟩

/-- C8: every folio produced by `get_folio` in mock mode satisfies
total_charges = round2(sum of charge amounts), total_payments =
round2(sum of payment amounts) and balance = round2(total_charges −
total_payments); in real mode the totals are copied verbatim from the
upstream `totalCharges` / `totalPayments` / `balance` fields, with no
recomputation (they are returned unchanged even when mutually
inconsistent with the charge list). -/
theorem folio_totals_invariant :
    (∀ (rid : String) (now : Nat) (t : Transport) (tok : PyVal) (w : World),
      ∃ f : Folio, (get_folio mockSettings t tok w now rid).1 = .ok f ∧
        f.total_charges = pyRound2 ((f.charges.map Charge.amount).sum) ∧
        f.total_payments = pyRound2 ((f.payments.map Payment.amount).sum) ∧
        f.balance = pyRound2 (f.total_charges - f.total_payments)) ∧
    (∀ (a b c : ℚ) (rid : String),
      (get_folio (realSettings 3) (folioStub a b c) (.str "T") emptyWorld 0 rid).1 =
        .ok { folio_id := "F1", reservation_id := rid, guest_name := "Jane Roe",
              room_number := "305", charges := [], payments := [],
              total_charges := a, total_payments := b, balance := c }) := by
  constructor
  · intro rid now t tok w
    refine ⟨_, rfl, rfl, rfl, ?_⟩
    norm_num [pyRound2, roundHalfEven, List.range_succ]
  · intro a b c rid
    rfl

/-- C9: `check_in` in mock mode returns, for any arguments and any
random draws, a `CheckInResult` with success `true`, the given
reservation and room ids, and 2 key cards issued; in particular for
arguments "RES123" and "ROOM42". -/
theorem mock_check_in_result :
    (∀ (d1 d2 now : Nat) (t : Transport) (tok : PyVal) (w : World)
       (reservation_id room_id : String),
      (check_in mockSettings t tok w d1 d2 now reservation_id room_id).1 =
        .ok { success := true, reservation_id := reservation_id,
              room_id := room_id, room_number := mockRoomNumber d1 d2,
              guest_name := "John Doe", check_in_time := .now now,
              key_cards_issued := 2,
              message := some "Welcome! Your room is ready." }) ∧
    (check_in mockSettings stubTokenOnly (.str "X") emptyWorld 3 7 0
        "RES123" "ROOM42").1 =
      .ok { success := true, reservation_id := "RES123", room_id := "ROOM42",
            room_number := "307", guest_name := "John Doe",
            check_in_time := .now 0, key_cards_issued := 2,
            message := some "Welcome! Your room is ready." } :=
  ⟨fun _ _ _ _ _ _ _ _ => rfl, rfl⟩

/-- C10 counterexample: with `max_retries = 0` on a fresh real-mode
client (no cached token), `_make_authenticated_request` still performs
the token acquisition first, issuing one HTTP request (the token
exchange) before raising "Max retries exceeded"; so the claim's "no HTTP
request is issued" is false for this call. -/
theorem zero_retries_counterexample :
    make_authenticated_request (realSettings 0) stubTokenOnly PyVal.none emptyWorld
        "GET" "/guests/G1" [("propertyId", "")] Option.none =
      (.error (.synxisError (.str "Max retries exceeded") (some 503) []), .str "TOK",
       { requests := [tokenRequest (realSettings 0)], sleeps := [] }) ∧
    (make_authenticated_request (realSettings 0) stubTokenOnly PyVal.none emptyWorld
        "GET" "/guests/G1" [("propertyId", "")] Option.none).2.2.requests.length = 1 :=
  ⟨rfl, rfl⟩

/-- C10 amended: with `max_retries = 0`, every real-mode call of
`_make_authenticated_request` executes zero attempts of its request loop
— no request to the API endpoint and no back-off sleep — and raises
`SynXisPMSError` "Max retries exceeded" with status 503; token
acquisition still runs first, so with a cached token the transport is
not touched at all, while on a fresh client the token exchange may still
issue one HTTP request. -/
theorem zero_retries_amended :
    ∀ (t : Transport) (w : World) (method endpoint : String)
      (params : List (String × String)) (jsonBody : Option PyVal),
    make_authenticated_request (realSettings 0) t (.str "T") w method endpoint
        params jsonBody =
      (.error (.synxisError (.str "Max retries exceeded") (some 503) []),
       .str "T", w) :=
  fun _ _ _ _ _ _ => rfl
